import Mathlib

/-!
Shallow embedding of `pdemtools/load.py`.

The module loads ArcticDEM/REMA DEM strips and mosaics.  Pure logic
(validation, version resolution, path construction, deduplication, the
nodata filter `where(dem > -9999.0)`, the band-dimension `squeeze`) is
translated directly from the Python source.  External collaborators
(rioxarray's `open_rasterio`/`clip_box`, geopandas' indexed `read_file`,
the `clip` helper from `pdemtools._utils` whose source is not part of the
repository snapshot, and `merge_arrays`) are uninterpreted functions
collected in an `Env` record: every theorem below holds for an arbitrary
`Env`, i.e. for every possible behaviour of those collaborators, with
successful I/O (I/O failures propagate unchanged in the source and are
out of scope of the claims).  Raster cell values are modelled as `Option ℚ`
(`none` is the missing-data marker NaN; the ordering of the float values
involved, all finite, coincides with the rational ordering).  Calls that
perform I/O are additionally instrumented with a trace of `IOEvent`s so
that "before any I/O" and "opened exactly once" can be stated.
-/

/-- Python exceptions raised (or propagated) by the module. -/
inductive PyError
  | valueError (msg : String)
  | indexError (msg : String)
  | typeError (msg : String)
  | attributeError (msg : String)
deriving DecidableEq

/-- A bounding rectangle (xmin, ymin, xmax, ymax). -/
abbrev Bounds := ℚ × ℚ × ℚ × ℚ

/-- A shapely polygon, abstracted to the only feature the module uses:
its envelope `bounds`. -/
structure Polygon where
  bounds : Bounds
deriving DecidableEq

/-- The `bounds` argument of the loaders: `None`, a tuple, or a Polygon. -/
inductive BoundsArg
  | omitted
  | tup (b : Bounds)
  | poly (p : Polygon)
deriving DecidableEq

/-- `type(bounds) == Polygon: bounds = bounds.bounds` followed by the
`is not None` test: the effective optional rectangle. -/
def boundsResolve : BoundsArg → Option Bounds
  | .omitted => none
  | .tup b => some b
  | .poly p => some p.bounds

/-- An xarray DataArray, reduced to what the module observes: named
dimensions with their sizes, and the flattened cell values
(`none` = NaN, the missing-data marker). -/
structure Raster where
  dims : List (String × Nat)
  data : List (Option ℚ)
deriving DecidableEq

/-- One cell of `da.where(da > t)`: kept iff its value compares greater
than `t` (NaN compares False), otherwise NaN. -/
def cellGt (t : ℚ) : Option ℚ → Option ℚ
  | some x => if t < x then some x else none
  | none => none

/-- `da.where(da > t)`. -/
def Raster.whereGt (r : Raster) (t : ℚ) : Raster :=
  ⟨r.dims, r.data.map (cellGt t)⟩

/-- Cell-wise bitmask application for `dem.where(mask == 0)`: a cell is
kept iff the mask cell at the same position is 0 (NaN compares False).
The source applies it to same-shaped rasters; a missing mask position is
treated as masked. -/
def maskCells : List (Option ℚ) → List (Option ℚ) → List (Option ℚ)
  | [], _ => []
  | _ :: vs, [] => none :: maskCells vs []
  | v :: vs, m :: ms =>
      (match m with
       | some mv => if mv = 0 then v else none
       | none => none) :: maskCells vs ms

/-- `dem.where(mask == 0)`. -/
def Raster.whereMaskEq0 (r mask : Raster) : Raster :=
  ⟨r.dims, maskCells r.data mask.data⟩

/-- `da.squeeze(drop=True)`: remove every dimension of size 1. -/
def Raster.squeeze (r : Raster) : Raster :=
  ⟨r.dims.filter (fun d => d.2 != 1), r.data⟩

/-- A record of the mosaic index: `tile` and `supertile` identifiers
(the geometry is consumed by the indexed read, modelled in `Env`). -/
structure TileRow where
  tile : String
  supertile : String
deriving DecidableEq

/-- One I/O action performed by `mosaic`. -/
inductive IOEvent
  | readIndex (fpath layer : String) (bbox : Option Bounds)
  | openRaster (fpath : String)
deriving DecidableEq

/-- The external collaborators, plus the one piece of runtime state that
leaks into an error message (`keysAddr`, the hex address printed by the
repr of the bound method `VERSIONS.keys`). -/
structure Env where
  /-- `rioxarray.open_rasterio` on a successfully opened source. -/
  openRasterio : String → Raster
  /-- `pdemtools._utils.clip` (source not in the snapshot; uninterpreted). -/
  clip : Raster → Bounds → Raster
  /-- `DataArray.rio.clip_box`. -/
  clipBox : Raster → Bounds → Raster
  /-- `DataArray.rio.bounds()`. -/
  rioBounds : Raster → Bounds
  /-- `rioxarray.merge.merge_arrays`. -/
  mergeArrays : List Raster → Raster
  /-- `gpd.read_file(index_fpath, layer=layer, bbox=bounds)`: the tile
  records whose footprint intersects the bbox (`none` bbox reads all). -/
  readIndex : String → String → Option Bounds → List TileRow
  /-- `resources.files("pdemtools.mosaic_index")`. -/
  resourceRoot : String
  /-- hex digits of the id printed by `repr(VERSIONS.keys)`. -/
  keysAddr : String

/-- ASCII case-folding of one character, as `str.lower` acts on the
ASCII identifiers this module lowercases. -/
def lowerChar (c : Char) : Char :=
  match c with
  | 'A' => 'a' | 'B' => 'b' | 'C' => 'c' | 'D' => 'd' | 'E' => 'e'
  | 'F' => 'f' | 'G' => 'g' | 'H' => 'h' | 'I' => 'i' | 'J' => 'j'
  | 'K' => 'k' | 'L' => 'l' | 'M' => 'm' | 'N' => 'n' | 'O' => 'o'
  | 'P' => 'p' | 'Q' => 'q' | 'R' => 'r' | 'S' => 's' | 'T' => 't'
  | 'U' => 'u' | 'V' => 'v' | 'W' => 'w' | 'X' => 'x' | 'Y' => 'y'
  | 'Z' => 'z'
  | c => c

/-- Python `s.lower()` (ASCII). -/
def pyLower (s : String) : String :=
  ⟨s.data.map lowerChar⟩

/-- `os.path.join` for the relative, slash-free components the module
joins (no component is absolute or ends in a separator). -/
def pyPathJoin : List String → String
  | [] => ""
  | [s] => s
  | s :: rest => s ++ "/" ++ pyPathJoin rest

/-- Does `pat` start `l`? -/
def startsWithL : List Char → List Char → Bool
  | _, [] => true
  | [], _ :: _ => false
  | a :: as, b :: bs => a == b && startsWithL as bs

/-- Fuel-bounded scan for Python `s.split(sep)` (every occurrence of the
non-empty separator splits); the fuel is the length of the scanned list,
consumed at least one character per step, so it never runs out. -/
def splitOnFuel (sep : List Char) : Nat → List Char → List Char → List (List Char)
  | 0, l, acc => [acc.reverse ++ l]
  | _ + 1, [], acc => [acc.reverse]
  | fuel + 1, c :: rest, acc =>
      if sep ≠ [] ∧ startsWithL (c :: rest) sep = true then
        acc.reverse :: splitOnFuel sep fuel ((c :: rest).drop sep.length) []
      else
        splitOnFuel sep fuel rest (c :: acc)

/-- Python `s.split(sep)` for a non-empty separator. -/
def pySplit (s sep : String) : List String :=
  (splitOnFuel sep.data s.data.length s.data []).map fun l => ⟨l⟩

/-- Fuel-bounded scan for Python `s.replace(pat, rep)` (every occurrence
of the non-empty pattern is replaced, left to right, without rescanning
the replacement). -/
def replaceFuel (pat rep : List Char) : Nat → List Char → List Char
  | 0, l => l
  | _ + 1, [] => []
  | fuel + 1, c :: rest =>
      if pat ≠ [] ∧ startsWithL (c :: rest) pat = true then
        rep ++ replaceFuel pat rep fuel ((c :: rest).drop pat.length)
      else
        c :: replaceFuel pat rep fuel rest

/-- Python `s.replace(pat, rep)` for a non-empty pattern. -/
def pyReplace (s pat rep : String) : String :=
  ⟨replaceFuel pat.data rep.data s.data.length s.data⟩

/-- Python `repr` of a list of strings, as an f-string formats it. -/
def pyReprStrList (l : List String) : String :=
  "[" ++ String.intercalate ", " (l.map fun s => "\x27" ++ s ++ "\x27") ++ "]"

/-- Python `l[n]` for a non-negative index. -/
def pyGetElem {α : Type} (l : List α) (n : Nat) : Except PyError α :=
  match l.get? n with
  | some a => .ok a
  | none => .error (.indexError "list index out of range")

/-- Python `l[-1]`. -/
def pyNeg1 {α : Type} (l : List α) : Except PyError α :=
  match l.getLast? with
  | some a => .ok a
  | none => .error (.indexError "list index out of range")

/-- A Python `for` loop building a list, where the body may raise: the
first exception aborts the loop. -/
def mapExcept {α β : Type} (f : α → Except PyError β) : List α → Except PyError (List β)
  | [] => .ok []
  | a :: as =>
    match f a with
    | .error e => .error e
    | .ok b =>
      match mapExcept f as with
      | .error e => .error e
      | .ok bs => .ok (b :: bs)

/-- `list(set(fpaths))`: the duplicate-free list of the same elements
(Python's set iteration order is unspecified; every property proved about
it below is order-independent). -/
def pySet (l : List String) : List String :=
  l.dedup

/-- `VERSIONS = {"arcticdem": ["v3.0", "v4.1"], "rema": ["v2.0"]}`. -/
def VERSIONS : List (String × List String) :=
  [("arcticdem", ["v3.0", "v4.1"]), ("rema", ["v2.0"])]

/-- `VERSIONS.keys()`. -/
def versionsKeys : List String :=
  VERSIONS.map (·.1)

/-- `VERSIONS[dataset]` (only looked up after the membership check). -/
def versionsGet (dataset : String) : List String :=
  (List.lookup dataset VERSIONS).getD []

def ARCTICDEM_V3_INDEX_FNAME : String := "ArcticDEM_Mosaic_Index_v3_gpkg.gpkg"

def ARCTICDEM_V3_INDEX_2M_LAYER_NAME : String := "ArcticDEM_Mosaic_Index_v3_2m"

def ARCTICDEM_V4_INDEX_FNAME : String := "ArcticDEM_Mosaic_Index_v4_1_gpkg.gpkg"

def ARCTICDEM_V4_INDEX_2M_LAYER_NAME : String := "ArcticDEM_Mosaic_Index_v4_1_2m"

def REMA_V2_INDEX_FNAME : String := "REMA_Mosaic_Index_v2_gpkg.gpkg"

def REMA_V2_INDEX_2M_LAYER_NAME : String := "REMA_Mosaic_Index_v2_2m"

/-- The module constant named `PREFIX` in the source. -/
def AWS_ROOT : String := "https://pgc-opendata-dems.s3.us-west-2.amazonaws.com"

def VALID_MOSAIC_RES : List String := ["2m", "10m", "32m"]

/-- The repr of the bound method `VERSIONS.keys`, as interpolated by the
f-string in the dataset validation message (the source omits the call
parentheses); the id printed after `0x` varies per run. -/
def keysMethodRepr (env : Env) : String :=
  "<built-in method keys of dict object at 0x" ++ env.keysAddr ++ ">"

/-- Message of line 267: `f"Dataset must be one of {VERSIONS.keys}. Currently {dataset}."`. -/
def datasetErrMsg (env : Env) (dataset : String) : String :=
  "Dataset must be one of " ++ keysMethodRepr env ++ ". Currently `" ++ dataset ++ "`."

/-- Message of line 274. -/
def versionErrMsg (dataset version : String) : String :=
  "Version of " ++ dataset ++ " must be one of " ++ pyReprStrList (versionsGet dataset)
    ++ ". Currently `" ++ version ++ "`"

/-- Message of line 284. -/
def resolutionErrMsg (resolution : String) : String :=
  "Resolution must be one of " ++ pyReprStrList VALID_MOSAIC_RES
    ++ ". Currently `" ++ resolution ++ "`"

/-- Message of line 310 (deliberately literal braces: the source string
has no f-prefix). -/
def noDataMsg : String :=
  "No \x7bdataset\x7d mosaic tiles found to intersect with bounds \x7baoi\x7d"

/-- Message of lines 300 and 360 (typo preserved from the source). -/
def configErrMsg : String :=
  "Cannot retrive internal index filepath for specified dataset and version."

/-- Message of line 388. -/
def inputResolutionErrMsg : String :=
  "Input `resolution` must be one of [\x272m\x27, \x2710m\x27, \x2732m\x27]"

/-- Lines 59-70 of `from_fpath`: open the source raster and clip it if
bounds were given. -/
def from_fpath_clipped (env : Env) (dem_fpath : String) (bounds : BoundsArg) : Raster :=
  match boundsResolve bounds with
  | some b => env.clip (env.openRasterio dem_fpath) b
  | none => env.openRasterio dem_fpath

/-- The effective bounds after lines 62-70 (the raster's own bounds when
none were given). -/
def from_fpath_bounds (env : Env) (dem_fpath : String) (bounds : BoundsArg) : Bounds :=
  match boundsResolve bounds with
  | some b => b
  | none => env.rioBounds (env.openRasterio dem_fpath)

/-- `from_fpath`: open, clip, filter `-9999.0`, optionally bitmask,
squeeze. -/
def from_fpath (env : Env) (dem_fpath : String) (bounds : BoundsArg)
    (bitmask_fpath : Option String) : Raster :=
  let dem := (from_fpath_clipped env dem_fpath bounds).whereGt (-9999)
  let dem2 :=
    match bitmask_fpath with
    | some mf =>
        dem.whereMaskEq0 (env.clip (env.openRasterio mf) (from_fpath_bounds env dem_fpath bounds))
    | none => dem
  dem2.squeeze

/-- The `s3url` field of a search row: a scalar string, or a pandas
Series of strings. -/
inductive RowField
  | scalar (s : String)
  | series (vals : List String)
deriving DecidableEq

/-- A row of the search GeoDataFrame, reduced to the one field read. -/
structure Row where
  s3url : RowField
deriving DecidableEq

/-- `try: s3url = row.s3url.values[0] / except: s3url = row.s3url`.
A scalar has no `.values` (the AttributeError is caught and the scalar
used); an empty series raises inside the try, is caught, and the series
object then fails on `.split` downstream (AttributeError). -/
def resolveS3url : RowField → Except PyError String
  | .scalar s => .ok s
  | .series (v :: _) => .ok v
  | .series [] => .error (.attributeError "Series object has no attribute split")

/-- `"http:--" + s3url.split("-external-")[1]` (shared by `preview` and
`from_search`). -/
def searchJsonUrl (row : Row) : Except PyError String :=
  (resolveS3url row.s3url).bind fun s3url =>
    (pyGetElem (pySplit s3url "/external/") 1).map fun tail => "http://" ++ tail

/-- `preview`: load the 10 m hillshade derived from the row's STAC URL,
then keep only positive values. -/
def preview (env : Env) (row : Row) (bounds : BoundsArg) : Except PyError Raster :=
  (searchJsonUrl row).map fun json_url =>
    let p := from_fpath env (pyReplace json_url ".json" "_dem_10m_shade_masked.tif") bounds none
    p.whereGt 0

/-- `from_search`: derive the DEM (and optionally bitmask) URLs from the
row and delegate to `from_fpath`. -/
def from_search (env : Env) (row : Row) (bounds : BoundsArg) (bitmask : Bool) :
    Except PyError Raster :=
  (searchJsonUrl row).map fun json_url =>
    from_fpath env (pyReplace json_url ".json" "_dem.tif") bounds
      (if bitmask then some (pyReplace json_url ".json" "_bitmask.tif") else none)

def BROWSER_ROOT : String :=
  "https://polargeospatialcenter.github.io/stac-browser/#/external/pgc-opendata-dems.s3.us-west-2.amazonaws.com"

/-- `from_id` returns a raster, or just the browser URL when `preview`
is requested. -/
inductive FromIdResult
  | url (s : String)
  | raster (r : Raster)
deriving DecidableEq

/-- `from_id`: lowercase `dataset` and `geocell`, build the strip paths,
delegate to `from_fpath` (or return the browser preview URL). -/
def from_id (env : Env) (dataset geocell dem_id : String) (bounds : BoundsArg)
    (bitmask : Bool) (bucket : String) (version : String) (preview : Bool) : FromIdResult :=
  let dataset := pyLower dataset
  let geocell := pyLower geocell
  if preview then
    .url (pyPathJoin [BROWSER_ROOT, dataset, "strips", version, "2m", geocell, dem_id ++ ".json"])
  else
    let dem_fpath :=
      pyPathJoin [bucket, dataset, "strips", version, "2m", geocell, dem_id ++ "_dem.tif"]
    let bitmask_fpath :=
      if bitmask then
        some (pyPathJoin [bucket, dataset, "strips", version, "2m", geocell,
          dem_id ++ "_bitmask.tif"])
      else none
    .raster (from_fpath env dem_fpath bounds bitmask_fpath)

/-- Lines 269-275: default the version to the dataset's last listed one,
or reject a version not valid for the dataset. -/
def resolveVersion (dataset : String) (version : Option String) : Except PyError String :=
  match version with
  | none => pyNeg1 (versionsGet dataset)
  | some v =>
      if v ∈ versionsGet dataset then .ok v
      else .error (.valueError (versionErrMsg dataset v))

/-- Normalisation of the `resolution` argument (lines 277-279): an `int`
is formatted and suffixed with `m`, a string passes through. -/
inductive ResArg
  | int (n : ℤ)
  | str (s : String)
deriving DecidableEq

/-- `if type(resolution) == int: resolution = f"{resolution}m"`. -/
def resKey : ResArg → String
  | .int n => toString n ++ "m"
  | .str s => s

/-- Lines 292-301: the 2 m index layer name for the dataset/version. -/
def indexLayer (dataset version : String) : Except PyError String :=
  if dataset = "arcticdem" ∧ version = "v3.0" then .ok ARCTICDEM_V3_INDEX_2M_LAYER_NAME
  else if dataset = "arcticdem" ∧ version = "v4.1" then .ok ARCTICDEM_V4_INDEX_2M_LAYER_NAME
  else if dataset = "rema" ∧ version = "v2.0" then .ok REMA_V2_INDEX_2M_LAYER_NAME
  else .error (.valueError configErrMsg)

/-- `_get_index_fpath`: the packaged index file for the dataset/version. -/
def get_index_fpath (env : Env) (dataset version : String) : Except PyError String :=
  if dataset = "arcticdem" ∧ version = "v3.0" then
    .ok (pyPathJoin [env.resourceRoot, ARCTICDEM_V3_INDEX_FNAME])
  else if dataset = "arcticdem" ∧ version = "v4.1" then
    .ok (pyPathJoin [env.resourceRoot, ARCTICDEM_V4_INDEX_FNAME])
  else if dataset = "rema" ∧ version = "v2.0" then
    .ok (pyPathJoin [env.resourceRoot, REMA_V2_INDEX_FNAME])
  else .error (.valueError configErrMsg)

/-- The tile filename suffix built by `_aws_link` (lines 377-380):
resolution, version, and for ArcticDEM v3.0 the extra registration
marker. -/
def mosaicSuffix (dataset version resolution : String) : String :=
  if dataset = "arcticdem" ∧ version = "v3.0" then
    "_" ++ resolution ++ "_" ++ version ++ "_reg_dem.tif"
  else
    "_" ++ resolution ++ "_" ++ version ++ "_dem.tif"

/-- `_aws_link`: the storage path of one mosaic tile (the identifier is
the tile code at 2 m, the supertile code at 10 m/32 m). -/
def aws_link (row : TileRow) (dataset version resolution pfx : String) :
    Except PyError String :=
  let suffix := mosaicSuffix dataset version resolution
  match (if resolution = "2m" then Except.ok (row.tile ++ suffix)
         else if resolution ∈ (["10m", "32m"] : List String) then
           Except.ok (row.supertile ++ suffix)
         else Except.error (PyError.valueError inputResolutionErrMsg)) with
  | .error e => .error e
  | .ok fname =>
      .ok (pyPathJoin [pfx, dataset, "mosaics", version, resolution, row.supertile, fname])

/-- Lines 322-340 of `mosaic`: open each deduplicated path clipped to
the bounds, re-open the single path when exactly one remains (line 329,
whose result lines 332-335 then discard), merge if several, and filter
the nodata sentinel.  The second component is the trace of raster opens,
appended to the events accumulated so far. -/
def loadAndMerge (env : Env) (fpaths : List String) (bounds : Option Bounds)
    (ev0 : List IOEvent) : Except PyError Raster × List IOEvent :=
  match bounds with
  | none =>
      -- `clip_box(*None)` raises before any dem is appended
      match fpaths with
      | [] => (.error (.indexError "list index out of range"), ev0)
      | f :: _ =>
          (.error (.typeError "argument after * must be an iterable, not NoneType"),
           ev0 ++ [.openRaster f])
  | some b =>
      let dems := fpaths.map fun f => env.clipBox (env.openRasterio f) b
      let ev1 := ev0 ++ fpaths.map fun f => IOEvent.openRaster f
      let ev2 := if fpaths.length == 1 then ev1 ++ [.openRaster (fpaths.headD "")] else ev1
      match dems with
      | [] => (.error (.indexError "list index out of range"), ev2)
      | [d] => (.ok (d.whereGt (-9999)), ev2)
      | d :: ds => (.ok ((env.mergeArrays (d :: ds)).whereGt (-9999)), ev2)

/-- Lines 303-340 of `mosaic`, after validation and index resolution:
query the index for intersecting tiles, fail when none intersect, build
one storage path per record, deduplicate, load and merge. -/
def mosaicTail (env : Env) (dataset version resolution : String) (bounds : Option Bounds)
    (idx layer : String) : Except PyError Raster × List IOEvent :=
  let tiles := env.readIndex idx layer bounds
  if tiles.length < 1 then
    (.error (.valueError noDataMsg), [.readIndex idx layer bounds])
  else
    match mapExcept (fun row => aws_link row dataset version resolution AWS_ROOT) tiles with
    | .error e => (.error e, [.readIndex idx layer bounds])
    | .ok fpaths₀ =>
        loadAndMerge env (pySet fpaths₀) bounds [.readIndex idx layer bounds]

/-- `mosaic` with the resolution already normalised to a string:
validation, version resolution, index query, path construction,
deduplication, load and merge.  The second component is the I/O trace. -/
def mosaicStr (env : Env) (dataset₀ resolution : String) (bounds₀ : BoundsArg)
    (version₀ : Option String) : Except PyError Raster × List IOEvent :=
  let dataset := pyLower dataset₀
  if dataset ∈ versionsKeys then
    match resolveVersion dataset version₀ with
    | .error e => (.error e, [])
    | .ok version =>
      if resolution ∈ VALID_MOSAIC_RES then
        let bounds := boundsResolve bounds₀
        match indexLayer dataset version with
        | .error e => (.error e, [])
        | .ok layer =>
          match get_index_fpath env dataset version with
          | .error e => (.error e, [])
          | .ok idx => mosaicTail env dataset version resolution bounds idx layer
      else (.error (.valueError (resolutionErrMsg resolution)), [])
  else (.error (.valueError (datasetErrMsg env dataset)), [])

/-- `mosaic`: the public entry point, with the `int`-or-`str` resolution
argument normalised as by lines 277-279. -/
def mosaic (env : Env) (dataset : String) (resolution : ResArg) (bounds : BoundsArg)
    (version : Option String) : Except PyError Raster × List IOEvent :=
  mosaicStr env dataset (resKey resolution) bounds version

/-! Concrete fixtures used to evaluate the model at specific inputs. -/

/-- A small raster, as `open_rasterio` returns it: singleton `band`
dimension, one sentinel cell, one NaN cell. -/
def rasterA : Raster :=
  ⟨[("band", 1), ("y", 2), ("x", 2)], [some 1, some (-9999), some 3, none]⟩

/-- An environment whose index query returns two 2 m tile records of the
same supertile (the scenario of the deduplication test), and whose
raster reads all yield `rasterA`. -/
def envA : Env :=
  { openRasterio := fun _ => rasterA
    clip := fun r _ => r
    clipBox := fun r _ => r
    rioBounds := fun _ => (0, 0, 1, 1)
    mergeArrays := fun l => l.headD rasterA
    readIndex := fun _ _ _ => [⟨"15_38_1_1", "15_38"⟩, ⟨"15_38_1_2", "15_38"⟩]
    resourceRoot := "pdemtools/mosaic_index"
    keysAddr := "7f9c2a3b4c50" }

/-- `envA` with an index that intersects nothing. -/
def envEmpty : Env :=
  { envA with readIndex := fun _ _ _ => [] }

/-- A search row holding a scalar STAC URL. -/
def rowA : Row :=
  ⟨.scalar "s3://bucket/external/host/arcticdem/strips/x.json"⟩

/-! Helper lemmas. -/

theorem strData_append (a b : String) : (a ++ b).data = a.data ++ b.data := by
  cases a; cases b; rfl

theorem list_head?_eq_of_append {α : Type} (l₁ l₂ : List α) (a : α)
    (h : l₁.head? = some a) : (l₁ ++ l₂).head? = some a := by
  cases l₁ <;> simp_all

theorem string_ne_of_head (a b : String) (x y : Char)
    (ha : a.data.head? = some x) (hb : b.data.head? = some y) (hxy : x ≠ y) :
    a ≠ b := by
  intro e
  subst e
  rw [ha] at hb
  exact hxy (Option.some.inj hb)

theorem datasetErrMsg_head (env : Env) (ds : String) :
    (datasetErrMsg env ds).data.head? = some 'D' := by
  unfold datasetErrMsg keysMethodRepr
  simp only [strData_append]
  repeat apply list_head?_eq_of_append
  rfl

theorem versionErrMsg_head (ds v : String) :
    (versionErrMsg ds v).data.head? = some 'V' := by
  unfold versionErrMsg
  simp only [strData_append]
  repeat apply list_head?_eq_of_append
  rfl

theorem resolutionErrMsg_head (r : String) :
    (resolutionErrMsg r).data.head? = some 'R' := by
  unfold resolutionErrMsg
  simp only [strData_append]
  repeat apply list_head?_eq_of_append
  rfl

theorem lowerChar_eq_self (c : Char)
    (h : c ∉ (['A', 'B', 'C', 'D', 'E', 'F', 'G', 'H', 'I', 'J', 'K', 'L', 'M',
      'N', 'O', 'P', 'Q', 'R', 'S', 'T', 'U', 'V', 'W', 'X', 'Y', 'Z'] : List Char)) :
    lowerChar c = c := by
  unfold lowerChar
  split <;> simp_all

theorem lowerChar_idem (c : Char) : lowerChar (lowerChar c) = lowerChar c := by
  by_cases h : c ∈ (['A', 'B', 'C', 'D', 'E', 'F', 'G', 'H', 'I', 'J', 'K', 'L', 'M',
      'N', 'O', 'P', 'Q', 'R', 'S', 'T', 'U', 'V', 'W', 'X', 'Y', 'Z'] : List Char)
  · fin_cases h <;> decide
  · rw [lowerChar_eq_self c h, lowerChar_eq_self c h]

theorem pyLower_idem (s : String) : pyLower (pyLower s) = pyLower s := by
  unfold pyLower
  simp only [List.map_map]
  congr 1
  apply List.map_congr_left
  intro c _
  exact lowerChar_idem c

theorem pySet_mem (l : List String) (x : String) : x ∈ pySet l ↔ x ∈ l :=
  List.mem_dedup

theorem get?_map_own {α β : Type} (f : α → β) (l : List α) (i : Nat) :
    (l.map f).get? i = (l.get? i).map f := by
  induction l generalizing i with
  | nil => cases i <;> rfl
  | cons a as ih => cases i with
    | zero => rfl
    | succ j => exact ih j

theorem cellGt_cases (t : ℚ) (u : Option ℚ) :
    cellGt t u = none ∨ ∃ x, cellGt t u = some x ∧ t < x := by
  cases u with
  | none => exact Or.inl rfl
  | some x =>
      by_cases hx : t < x
      · exact Or.inr ⟨x, by simp [cellGt, hx], hx⟩
      · exact Or.inl (by simp [cellGt, hx])

theorem whereGt_mem (r : Raster) (t : ℚ) (v : Option ℚ)
    (h : v ∈ (r.whereGt t).data) : v = none ∨ ∃ x, v = some x ∧ t < x := by
  unfold Raster.whereGt at h
  simp only [List.mem_map] at h
  obtain ⟨u, _, rfl⟩ := h
  exact cellGt_cases t u

theorem whereGt_get_none (r : Raster) (t : ℚ) (i : Nat)
    (h : r.data.get? i = some (some t)) :
    (r.whereGt t).data.get? i = some none := by
  unfold Raster.whereGt
  dsimp only
  rw [get?_map_own, h]
  simp [cellGt]

theorem whereGt_dims (r : Raster) (t : ℚ) : (r.whereGt t).dims = r.dims := rfl

theorem whereGt_data_squeeze (r : Raster) : r.squeeze.data = r.data := rfl

theorem maskCells_sound (ds : List (Option ℚ)) :
    ∀ (ms : List (Option ℚ)) (v : Option ℚ), v ∈ maskCells ds ms → v = none ∨ v ∈ ds := by
  induction ds with
  | nil => intro ms v h; simp [maskCells] at h
  | cons d ds ih =>
      intro ms v h
      cases ms with
      | nil =>
          simp only [maskCells, List.mem_cons] at h
          rcases h with rfl | h
          · exact Or.inl rfl
          · rcases ih [] v h with h' | h'
            · exact Or.inl h'
            · exact Or.inr (List.mem_cons_of_mem d h')
      | cons m ms' =>
          simp only [maskCells, List.mem_cons] at h
          rcases h with rfl | h
          · cases m with
            | none => exact Or.inl rfl
            | some mv =>
                by_cases hm : mv = 0
                · exact Or.inr (by simp [hm])
                · exact Or.inl (by simp [hm])
          · rcases ih ms' v h with h' | h'
            · exact Or.inl h'
            · exact Or.inr (List.mem_cons_of_mem d h')

theorem maskCells_get_none (ds : List (Option ℚ)) :
    ∀ (ms : List (Option ℚ)) (i : Nat), ds.get? i = some none →
      (maskCells ds ms).get? i = some none := by
  induction ds with
  | nil => intro ms i h; simp at h
  | cons d ds ih =>
      intro ms i h
      cases i with
      | zero =>
          simp only [List.get?] at h
          obtain rfl : d = none := Option.some.inj h
          cases ms with
          | nil => rfl
          | cons m ms' =>
              cases m with
              | none => rfl
              | some mv =>
                  by_cases hm : mv = 0 <;> simp [maskCells, hm]
      | succ j =>
          cases ms with
          | nil => exact ih [] j h
          | cons m ms' => exact ih ms' j h

theorem squeeze_dims_ne_one (r : Raster) (d : String × Nat)
    (h : d ∈ r.squeeze.dims) : d.2 ≠ 1 := by
  unfold Raster.squeeze at h
  have := List.of_mem_filter h
  simpa using this

theorem except_map_ok {ε α β : Type} (f : α → β) (m : Except ε α) (b : β)
    (h : m.map f = .ok b) : ∃ a, m = .ok a ∧ b = f a := by
  cases m with
  | error e => simp [Except.map] at h
  | ok a =>
      refine ⟨a, rfl, ?_⟩
      have : Except.ok (ε := ε) (f a) = .ok b := h
      exact (Except.ok.inj this).symm

theorem from_fpath_mem (env : Env) (f : String) (b : BoundsArg) (bm : Option String)
    (v : Option ℚ) (h : v ∈ (from_fpath env f b bm).data) :
    v = none ∨ ∃ x, v = some x ∧ (-9999 : ℚ) < x := by
  unfold from_fpath at h
  cases bm with
  | none => exact whereGt_mem _ _ v h
  | some mf =>
      rcases maskCells_sound _ _ v h with h' | h'
      · exact Or.inl h'
      · exact whereGt_mem _ _ v h'

theorem loadAndMerge_ok (env : Env) (fpaths : List String) (bounds : Option Bounds)
    (ev0 : List IOEvent) (r : Raster)
    (h : (loadAndMerge env fpaths bounds ev0).1 = .ok r) :
    ∃ p, r = Raster.whereGt p (-9999) := by
  cases bounds with
  | none =>
      cases fpaths with
      | nil => simp [loadAndMerge] at h
      | cons f fs => simp [loadAndMerge] at h
  | some bb =>
      cases fpaths with
      | nil => simp [loadAndMerge] at h
      | cons f fs =>
          cases fs with
          | nil =>
              have h' : (Except.ok ((env.clipBox (env.openRasterio f) bb).whereGt (-9999)) :
                  Except PyError Raster) = .ok r := h
              exact ⟨env.clipBox (env.openRasterio f) bb, (Except.ok.inj h').symm⟩
          | cons f2 fs2 =>
              have h' : (Except.ok ((env.mergeArrays
                  (List.map (fun g => env.clipBox (env.openRasterio g) bb) (f :: f2 :: fs2))).whereGt
                    (-9999)) : Except PyError Raster) = .ok r := h
              exact ⟨env.mergeArrays
                (List.map (fun g => env.clipBox (env.openRasterio g) bb) (f :: f2 :: fs2)),
                (Except.ok.inj h').symm⟩

theorem mosaicTail_ok (env : Env) (dsc verc resc : String) (bounds : Option Bounds)
    (idx layer : String) (r : Raster)
    (h : (mosaicTail env dsc verc resc bounds idx layer).1 = .ok r) :
    ∃ p, r = Raster.whereGt p (-9999) := by
  by_cases h3 : (env.readIndex idx layer bounds).length < 1
  · simp [mosaicTail, h3] at h
  · cases hme : mapExcept (fun row => aws_link row dsc verc resc AWS_ROOT)
        (env.readIndex idx layer bounds) with
    | error e => simp [mosaicTail, h3, hme] at h
    | ok fpaths₀ =>
        have h' : (loadAndMerge env (pySet fpaths₀) bounds
            [.readIndex idx layer bounds]).1 = .ok r := by
          rw [← h]
          simp [mosaicTail, h3, hme]
        exact loadAndMerge_ok _ _ _ _ _ h'

theorem mosaicStr_ok (env : Env) (ds res : String) (b : BoundsArg) (verO : Option String)
    (r : Raster) (h : (mosaicStr env ds res b verO).1 = .ok r) :
    ∃ p, r = Raster.whereGt p (-9999) := by
  by_cases h1 : pyLower ds ∈ versionsKeys
  case neg => simp [mosaicStr, h1] at h
  case pos =>
    cases hrv : resolveVersion (pyLower ds) verO with
    | error e => simp [mosaicStr, h1, hrv] at h
    | ok ver =>
      by_cases h2 : res ∈ VALID_MOSAIC_RES
      case neg => simp [mosaicStr, h1, hrv, h2] at h
      case pos =>
        cases hil : indexLayer (pyLower ds) ver with
        | error e => simp [mosaicStr, h1, hrv, h2, hil] at h
        | ok layer =>
          cases hif : get_index_fpath env (pyLower ds) ver with
          | error e => simp [mosaicStr, h1, hrv, h2, hil, hif] at h
          | ok idx =>
              have h' : (mosaicTail env (pyLower ds) ver res (boundsResolve b) idx layer).1
                  = .ok r := by
                rw [← h]
                simp [mosaicStr, h1, hrv, h2, hil, hif]
              exact mosaicTail_ok _ _ _ _ _ _ _ _ h'

theorem resolveVersion_ok_arcticdem (w : Option String) (u : String)
    (h : resolveVersion "arcticdem" w = .ok u) : u = "v3.0" ∨ u = "v4.1" := by
  cases w with
  | none =>
      have h' : (Except.ok "v4.1" : Except PyError String) = .ok u := h
      exact Or.inr (Except.ok.inj h').symm
  | some s =>
      have h' : (if s ∈ versionsGet "arcticdem" then (Except.ok s : Except PyError String)
          else .error (.valueError (versionErrMsg "arcticdem" s))) = .ok u := h
      by_cases hs : s ∈ versionsGet "arcticdem"
      · rw [if_pos hs] at h'
        obtain rfl := Except.ok.inj h'
        have hv : versionsGet "arcticdem" = ["v3.0", "v4.1"] := rfl
        rw [hv] at hs
        simpa using hs
      · rw [if_neg hs] at h'
        exact absurd h' (by simp)

theorem resolveVersion_ok_rema (w : Option String) (u : String)
    (h : resolveVersion "rema" w = .ok u) : u = "v2.0" := by
  cases w with
  | none =>
      have h' : (Except.ok "v2.0" : Except PyError String) = .ok u := h
      exact (Except.ok.inj h').symm
  | some s =>
      have h' : (if s ∈ versionsGet "rema" then (Except.ok s : Except PyError String)
          else .error (.valueError (versionErrMsg "rema" s))) = .ok u := h
      by_cases hs : s ∈ versionsGet "rema"
      · rw [if_pos hs] at h'
        obtain rfl := Except.ok.inj h'
        have hv : versionsGet "rema" = ["v2.0"] := rfl
        rw [hv] at hs
        simpa using hs
      · rw [if_neg hs] at h'
        exact absurd h' (by simp)

theorem aws_link_ok (row : TileRow) (ds ver res pfx : String)
    (hres : res ∈ VALID_MOSAIC_RES) : ∃ p, aws_link row ds ver res pfx = .ok p := by
  have h3 : res = "2m" ∨ res = "10m" ∨ res = "32m" := by
    simpa [VALID_MOSAIC_RES] using hres
  rcases h3 with rfl | rfl | rfl <;> exact ⟨_, rfl⟩

theorem mapExcept_ok_of_all {α β : Type} (f : α → Except PyError β) (l : List α)
    (h : ∀ a ∈ l, ∃ b, f a = .ok b) : ∃ bs, mapExcept f l = .ok bs := by
  induction l with
  | nil => exact ⟨[], rfl⟩
  | cons a as ih =>
      obtain ⟨b, hb⟩ := h a (List.mem_cons_self a as)
      obtain ⟨bs, hbs⟩ := ih fun x hx => h x (List.mem_cons_of_mem a hx)
      exact ⟨b :: bs, by simp [mapExcept, hb, hbs]⟩

theorem mapExcept_error {α β : Type} (f : α → Except PyError β) (l : List α) (e : PyError)
    (h : mapExcept f l = .error e) : ∃ a ∈ l, f a = .error e := by
  induction l with
  | nil => simp [mapExcept] at h
  | cons a as ih =>
      cases hfa : f a with
      | error e' =>
          simp only [mapExcept, hfa] at h
          obtain rfl := Except.error.inj h
          exact ⟨a, List.mem_cons_self a as, hfa⟩
      | ok b =>
          cases hm : mapExcept f as with
          | error e' =>
              simp only [mapExcept, hfa, hm] at h
              obtain rfl := Except.error.inj h
              obtain ⟨x, hx, hfx⟩ := ih hm
              exact ⟨x, List.mem_cons_of_mem a hx, hfx⟩
          | ok bs => simp [mapExcept, hfa, hm] at h

theorem strAppend_assoc (a b c : String) : a ++ b ++ c = a ++ (b ++ c) := by
  cases a with | mk l1 =>
  cases b with | mk l2 =>
  cases c with | mk l3 =>
  exact congrArg String.mk (List.append_assoc l1 l2 l3)

theorem from_fpath_dims_ne_one (env : Env) (f : String) (b : BoundsArg)
    (bm : Option String) (d : String × Nat) (h : d ∈ (from_fpath env f b bm).dims) :
    d.2 ≠ 1 :=
  squeeze_dims_ne_one _ d h

theorem notSentinel_of_cases (v : Option ℚ)
    (h : v = none ∨ ∃ x, v = some x ∧ (-9999 : ℚ) < x) : v ≠ some (-9999) := by
  rcases h with rfl | ⟨x, rfl, hx⟩
  · simp
  · intro hc
    obtain rfl := Option.some.inj hc
    exact lt_irrefl _ hx

theorem resolveVersion_error_form (ds : String) (verO : Option String) (e : PyError)
    (h : resolveVersion ds verO = .error e) :
    e = .indexError "list index out of range" ∨ ∃ v, e = .valueError (versionErrMsg ds v) := by
  cases verO with
  | none =>
      cases hg : (versionsGet ds).getLast? with
      | some a =>
          have h' : (Except.ok a : Except PyError String) = .error e := by
            rw [← h]; simp [resolveVersion, pyNeg1, hg]
          simp at h'
      | none =>
          have h' : (Except.error (.indexError "list index out of range") :
              Except PyError String) = .error e := by
            rw [← h]; simp [resolveVersion, pyNeg1, hg]
          exact Or.inl (Except.error.inj h').symm
  | some v =>
      have h' : (if v ∈ versionsGet ds then (Except.ok v : Except PyError String)
          else .error (.valueError (versionErrMsg ds v))) = .error e := h
      by_cases hv : v ∈ versionsGet ds
      · rw [if_pos hv] at h'
        simp at h'
      · rw [if_neg hv] at h'
        exact Or.inr ⟨v, (Except.error.inj h').symm⟩

theorem loadAndMerge_not_valueError (env : Env) (fpaths : List String)
    (bounds : Option Bounds) (ev0 : List IOEvent) (msg : String) :
    (loadAndMerge env fpaths bounds ev0).1 ≠ .error (.valueError msg) := by
  cases bounds with
  | none =>
      cases fpaths with
      | nil =>
          intro hc
          have h' : (Except.error (.indexError "list index out of range") :
              Except PyError Raster) = .error (.valueError msg) := hc
          exact absurd (Except.error.inj h') (by simp)
      | cons f fs =>
          intro hc
          have h' : (Except.error (.typeError "argument after * must be an iterable, not NoneType") :
              Except PyError Raster) = .error (.valueError msg) := hc
          exact absurd (Except.error.inj h') (by simp)
  | some bb =>
      cases fpaths with
      | nil =>
          intro hc
          have h' : (Except.error (.indexError "list index out of range") :
              Except PyError Raster) = .error (.valueError msg) := hc
          exact absurd (Except.error.inj h') (by simp)
      | cons f fs =>
          cases fs with
          | nil =>
              intro hc
              have h' : (Except.ok ((env.clipBox (env.openRasterio f) bb).whereGt (-9999)) :
                  Except PyError Raster) = .error (.valueError msg) := hc
              simp at h'
          | cons f2 fs2 =>
              intro hc
              have h' : (Except.ok ((env.mergeArrays
                  (List.map (fun g => env.clipBox (env.openRasterio g) bb) (f :: f2 :: fs2))).whereGt
                    (-9999)) : Except PyError Raster) = .error (.valueError msg) := hc
              simp at h'

theorem mosaicTail_empty (env : Env) (hempty : ∀ f l bb, env.readIndex f l bb = [])
    (dsc verc resc : String) (bounds : Option Bounds) (idx layer : String) :
    (mosaicTail env dsc verc resc bounds idx layer).1 = .error (.valueError noDataMsg) := by
  simp [mosaicTail, hempty]

theorem mosaicTail_not_config (env : Env) (dsc verc resc : String) (bounds : Option Bounds)
    (idx layer : String) (hres : resc ∈ VALID_MOSAIC_RES) :
    (mosaicTail env dsc verc resc bounds idx layer).1 ≠ .error (.valueError configErrMsg) := by
  by_cases h3 : (env.readIndex idx layer bounds).length < 1
  · intro hc
    have h' : (Except.error (.valueError noDataMsg) : Except PyError Raster)
        = .error (.valueError configErrMsg) := by
      rw [← hc]; simp [mosaicTail, h3]
    have hmsg := PyError.valueError.inj (Except.error.inj h')
    exact absurd hmsg (string_ne_of_head _ _ 'N' 'C' rfl rfl (by decide))
  · cases hme : mapExcept (fun row => aws_link row dsc verc resc AWS_ROOT)
        (env.readIndex idx layer bounds) with
    | error e =>
        obtain ⟨a, _, hfa⟩ := mapExcept_error _ _ _ hme
        obtain ⟨p, hp⟩ := aws_link_ok a dsc verc resc AWS_ROOT hres
        rw [hp] at hfa
        simp at hfa
    | ok fpaths₀ =>
        intro hc
        have h' : (loadAndMerge env (pySet fpaths₀) bounds [.readIndex idx layer bounds]).1
            = .error (.valueError configErrMsg) := by
          rw [← hc]; simp [mosaicTail, h3, hme]
        exact loadAndMerge_not_valueError _ _ _ _ _ h'

/-! Claim theorems. -/

/-- Claim C1: in `mosaic`, duplicate storage paths are collapsed before
loading and no spatially distinct path is dropped (second conjunct), but
the claim that each unique raster path is then opened and loaded exactly
once fails: in the deduplication scenario itself (two intersecting 2 m
tile records of the same supertile at 10 m resolution, leaving exactly
one unique path), the redundant re-open of line 329 of the source makes
the trace open that single path twice. -/
theorem mosaic_single_supertile_double_open :
    ((mosaic envA "arcticdem" (ResArg.str "10m") (BoundsArg.tup (0, 0, 1, 1)) none).2.count
      (IOEvent.openRaster
        "https://pgc-opendata-dems.s3.us-west-2.amazonaws.com/arcticdem/mosaics/v4.1/10m/15_38/15_38_10m_v4.1_dem.tif")
      = 2)
    ∧ ∀ (l : List String) (x : String), x ∈ pySet l ↔ x ∈ l :=
  ⟨by decide, fun l x => pySet_mem l x⟩

/-- Claim C2 (counterexample): `mosaic` returns its raster without
removing the singleton band dimension — with an index of two tile
records of one supertile and a loader returning a raster with a
singleton `band` dimension, the raster `mosaic` returns still carries
`("band", 1)`. -/
theorem mosaic_returns_band_dim :
    (mosaic envA "arcticdem" (ResArg.str "10m") (BoundsArg.tup (0, 0, 1, 1)) none).1
      = .ok ⟨[("band", 1), ("y", 2), ("x", 2)], [some 1, none, some 3, none]⟩
    ∧ ("band", 1) ∈
        (Raster.mk [("band", 1), ("y", 2), ("x", 2)] [some 1, none, some 3, none]).dims :=
  ⟨rfl, by decide⟩

/-- Claim C2 (amended): every raster returned by `from_fpath`, `preview`,
`from_search` and `from_id` has had its singleton dimensions (in
particular the band dimension) removed before being returned; `mosaic`
is excluded, as it returns the merged raster unsqueezed. -/
theorem strip_loaders_remove_singleton_dims :
    (∀ (env : Env) (f : String) (b : BoundsArg) (bm : Option String) (d : String × Nat),
        d ∈ (from_fpath env f b bm).dims → d.2 ≠ 1)
    ∧ (∀ (env : Env) (row : Row) (b : BoundsArg) (r : Raster) (d : String × Nat),
        preview env row b = .ok r → d ∈ r.dims → d.2 ≠ 1)
    ∧ (∀ (env : Env) (row : Row) (b : BoundsArg) (bm : Bool) (r : Raster) (d : String × Nat),
        from_search env row b bm = .ok r → d ∈ r.dims → d.2 ≠ 1)
    ∧ (∀ (env : Env) (ds g dem_id : String) (b : BoundsArg) (bm : Bool) (bu ver : String)
        (pv : Bool) (r : Raster) (d : String × Nat),
        from_id env ds g dem_id b bm bu ver pv = .raster r → d ∈ r.dims → d.2 ≠ 1) := by
  refine ⟨?_, ?_, ?_, ?_⟩
  · intro env f b bm d h
    exact from_fpath_dims_ne_one env f b bm d h
  · intro env row b r d h hd
    obtain ⟨u, _, rfl⟩ := except_map_ok _ _ _ h
    exact from_fpath_dims_ne_one env _ b none d hd
  · intro env row b bm r d h hd
    obtain ⟨u, _, rfl⟩ := except_map_ok _ _ _ h
    exact from_fpath_dims_ne_one env _ b _ d hd
  · intro env ds g dem_id b bm bu ver pv r d h hd
    cases pv with
    | true => simp [from_id] at h
    | false =>
        have h' : FromIdResult.raster (from_fpath env
            (pyPathJoin [bu, pyLower ds, "strips", ver, "2m", pyLower g, dem_id ++ "_dem.tif"]) b
            (if bm then some (pyPathJoin [bu, pyLower ds, "strips", ver, "2m", pyLower g,
              dem_id ++ "_bitmask.tif"]) else none)) = .raster r := h
        obtain rfl := FromIdResult.raster.inj h'
        exact from_fpath_dims_ne_one env _ b _ d hd

/-- Witness for claim C2's amended theorem at concrete inputs: the
`preview` raster of `envA` and the `from_fpath` raster of `envA` have
only non-singleton dimensions. -/
theorem strip_loaders_remove_singleton_dims_witness :
    ((("y", 2) : String × Nat).2 ≠ 1) ∧ ((("x", 2) : String × Nat).2 ≠ 1) :=
  ⟨strip_loaders_remove_singleton_dims.2.1 envA rowA BoundsArg.omitted
      ⟨[("y", 2), ("x", 2)], [some 1, none, some 3, none]⟩ ("y", 2) (by rfl) (by decide),
   strip_loaders_remove_singleton_dims.1 envA "f" BoundsArg.omitted none ("x", 2) (by decide)⟩

/-- Claim C4: with an unsupported dataset, `mosaic` raises the
validation error before any I/O (empty trace) — but the message
interpolates the repr of the bound method `VERSIONS.keys` (the source
omits the call parentheses), not the set of accepted dataset values. -/
theorem mosaic_dataset_error_before_io (env : Env) (res : ResArg) (b : BoundsArg)
    (verO : Option String) :
    mosaic env "madeup" res b verO
      = (.error (.valueError (datasetErrMsg env "madeup")), [])
    ∧ datasetErrMsg env "madeup"
      = "Dataset must be one of " ++ keysMethodRepr env ++ ". Currently `" ++ "madeup" ++ "`." :=
  ⟨rfl, rfl⟩

/-- Claim C6: with `version` omitted, `mosaic` resolves the most recent
supported version of the dataset (`v4.1` for arcticdem, `v2.0` for
rema) — behaving exactly as if that version had been passed — and any
explicit version outside the dataset's supported list is rejected. -/
theorem mosaic_version_default_and_reject (env : Env) (res : ResArg) (b : BoundsArg)
    (ds v : String) (hv : v ∉ versionsGet ds) :
    resolveVersion "arcticdem" none = .ok "v4.1"
    ∧ resolveVersion "rema" none = .ok "v2.0"
    ∧ resolveVersion ds (some v) = .error (.valueError (versionErrMsg ds v))
    ∧ mosaic env "arcticdem" res b none = mosaic env "arcticdem" res b (some "v4.1")
    ∧ mosaic env "rema" res b none = mosaic env "rema" res b (some "v2.0") := by
  refine ⟨rfl, rfl, ?_, rfl, rfl⟩
  have h' : resolveVersion ds (some v)
      = if v ∈ versionsGet ds then .ok v else .error (.valueError (versionErrMsg ds v)) := rfl
  rw [h', if_neg hv]

/-- Witness for claim C6 at concrete inputs. -/
theorem mosaic_version_default_and_reject_witness :
    resolveVersion "arcticdem" none = .ok "v4.1"
    ∧ resolveVersion "rema" none = .ok "v2.0"
    ∧ resolveVersion "arcticdem" (some "v9.9")
        = .error (.valueError (versionErrMsg "arcticdem" "v9.9"))
    ∧ mosaic envA "arcticdem" (ResArg.str "2m") BoundsArg.omitted none
        = mosaic envA "arcticdem" (ResArg.str "2m") BoundsArg.omitted (some "v4.1")
    ∧ mosaic envA "rema" (ResArg.str "2m") BoundsArg.omitted none
        = mosaic envA "rema" (ResArg.str "2m") BoundsArg.omitted (some "v2.0") :=
  mosaic_version_default_and_reject envA (ResArg.str "2m") BoundsArg.omitted
    "arcticdem" "v9.9" (by decide)

/-- Claim C7: `mosaic` with integer resolutions 2, 10, 32 behaves
identically to `mosaic` with the strings "2m", "10m", "32m". -/
theorem mosaic_int_resolution_equiv (env : Env) (ds : String) (b : BoundsArg)
    (verO : Option String) :
    mosaic env ds (ResArg.int 2) b verO = mosaic env ds (ResArg.str "2m") b verO
    ∧ mosaic env ds (ResArg.int 10) b verO = mosaic env ds (ResArg.str "10m") b verO
    ∧ mosaic env ds (ResArg.int 32) b verO = mosaic env ds (ResArg.str "32m") b verO :=
  ⟨rfl, rfl, rfl⟩

/-- Claim C10: `from_id` lowercases both `dataset` and `geocell` before
constructing any path, so a mixed-case argument yields exactly the same
result (DEM path, bitmask path, and preview URL) as its lowercase
form. -/
theorem from_id_case_insensitive (env : Env) (ds g dem_id : String) (b : BoundsArg)
    (bm : Bool) (bu ver : String) (pv : Bool) :
    from_id env ds g dem_id b bm bu ver pv = from_id env ds (pyLower g) dem_id b bm bu ver pv
    ∧ from_id env ds g dem_id b bm bu ver pv
        = from_id env (pyLower ds) g dem_id b bm bu ver pv := by
  constructor <;> simp [from_id, pyLower_idem]

/-- Claim C3: no raster returned by any loading operation (`from_fpath`,
`preview`, `from_search`, `from_id`, `mosaic`) contains a cell equal to
the nodata sentinel -9999.0 (first five conjuncts); a cell whose stored
value equals the sentinel is the missing-data marker at the same
position of the result (conjunct six for the strip loader, conjuncts
seven and eight for `mosaic`, whose returned raster is the
sentinel-filtered form of the loaded-and-merged raster). -/
theorem loaded_rasters_never_sentinel :
    (∀ (env : Env) (f : String) (b : BoundsArg) (bm : Option String) (v : Option ℚ),
        v ∈ (from_fpath env f b bm).data → v ≠ some (-9999))
    ∧ (∀ (env : Env) (row : Row) (b : BoundsArg) (r : Raster) (v : Option ℚ),
        preview env row b = .ok r → v ∈ r.data → v ≠ some (-9999))
    ∧ (∀ (env : Env) (row : Row) (b : BoundsArg) (bm : Bool) (r : Raster) (v : Option ℚ),
        from_search env row b bm = .ok r → v ∈ r.data → v ≠ some (-9999))
    ∧ (∀ (env : Env) (ds g dem_id : String) (b : BoundsArg) (bm : Bool) (bu ver : String)
        (pv : Bool) (r : Raster) (v : Option ℚ),
        from_id env ds g dem_id b bm bu ver pv = .raster r → v ∈ r.data → v ≠ some (-9999))
    ∧ (∀ (env : Env) (ds : String) (res : ResArg) (b : BoundsArg) (verO : Option String)
        (r : Raster) (v : Option ℚ),
        (mosaic env ds res b verO).1 = .ok r → v ∈ r.data → v ≠ some (-9999))
    ∧ (∀ (env : Env) (f : String) (b : BoundsArg) (bm : Option String) (i : Nat),
        (from_fpath_clipped env f b).data.get? i = some (some (-9999)) →
          (from_fpath env f b bm).data.get? i = some none)
    ∧ (∀ (env : Env) (ds : String) (res : ResArg) (b : BoundsArg) (verO : Option String)
        (r : Raster), (mosaic env ds res b verO).1 = .ok r →
          ∃ p, r = Raster.whereGt p (-9999))
    ∧ (∀ (r : Raster) (i : Nat), r.data.get? i = some (some (-9999)) →
        (r.whereGt (-9999)).data.get? i = some none) := by
  refine ⟨?_, ?_, ?_, ?_, ?_, ?_, ?_, ?_⟩
  · intro env f b bm v h
    exact notSentinel_of_cases v (from_fpath_mem env f b bm v h)
  · intro env row b r v h hv
    obtain ⟨u, _, rfl⟩ := except_map_ok _ _ _ h
    rcases whereGt_mem _ _ v hv with rfl | ⟨x, rfl, hx⟩
    · simp
    · exact notSentinel_of_cases _ (Or.inr ⟨x, rfl, lt_trans (by norm_num) hx⟩)
  · intro env row b bm r v h hv
    obtain ⟨u, _, rfl⟩ := except_map_ok _ _ _ h
    exact notSentinel_of_cases v (from_fpath_mem env _ b _ v hv)
  · intro env ds g dem_id b bm bu ver pv r v h hv
    cases pv with
    | true => simp [from_id] at h
    | false =>
        have h' : FromIdResult.raster (from_fpath env
            (pyPathJoin [bu, pyLower ds, "strips", ver, "2m", pyLower g, dem_id ++ "_dem.tif"]) b
            (if bm then some (pyPathJoin [bu, pyLower ds, "strips", ver, "2m", pyLower g,
              dem_id ++ "_bitmask.tif"]) else none)) = .raster r := h
        obtain rfl := FromIdResult.raster.inj h'
        exact notSentinel_of_cases v (from_fpath_mem env _ b _ v hv)
  · intro env ds res b verO r v h hv
    obtain ⟨p, rfl⟩ := mosaicStr_ok env ds (resKey res) b verO r h
    exact notSentinel_of_cases v (whereGt_mem p (-9999) v hv)
  · intro env f b bm i h
    cases bm with
    | none => exact whereGt_get_none _ _ i h
    | some mf => exact maskCells_get_none _ _ i (whereGt_get_none _ _ i h)
  · intro env ds res b verO r h
    exact mosaicStr_ok env ds (resKey res) b verO r h
  · intro r i h
    exact whereGt_get_none r (-9999) i h

/-- Witness for claim C3 at concrete inputs: a surviving cell of the
`from_fpath` raster differs from the sentinel, and the sentinel cell of
`rasterA` is missing in the filtered results. -/
theorem loaded_rasters_never_sentinel_witness :
    (some (1 : ℚ) ≠ some (-9999 : ℚ))
    ∧ (from_fpath envA "f" (BoundsArg.tup (0, 0, 1, 1)) none).data.get? 1 = some none
    ∧ (rasterA.whereGt (-9999)).data.get? 1 = some none
    ∧ (some (3 : ℚ) ≠ some (-9999 : ℚ)) :=
  ⟨loaded_rasters_never_sentinel.1 envA "f" BoundsArg.omitted none (some 1) (by decide),
   loaded_rasters_never_sentinel.2.2.2.2.2.1 envA "f" (BoundsArg.tup (0, 0, 1, 1)) none 1
     (by decide),
   loaded_rasters_never_sentinel.2.2.2.2.2.2.2 rasterA 1 (by decide),
   loaded_rasters_never_sentinel.2.2.2.2.1 envA "arcticdem" (ResArg.str "2m")
     (BoundsArg.tup (0, 0, 1, 1)) none
     ⟨[("band", 1), ("y", 2), ("x", 2)], [some 1, none, some 3, none]⟩ (some 3)
     (by rfl) (by decide)⟩

/-- Claim C5: a `mosaic` call that passes dataset, version and
resolution validation but whose bounds intersect zero index records
fails with the no-data error, and that error message differs from every
message a dataset, version or resolution validation failure can
produce. -/
theorem mosaic_zero_tiles_no_data (env : Env)
    (hempty : ∀ f l bb, env.readIndex f l bb = [])
    (ds : String) (res : ResArg) (verO : Option String) (b : BoundsArg) (ver : String)
    (hds : pyLower ds ∈ versionsKeys)
    (hver : resolveVersion (pyLower ds) verO = .ok ver)
    (hres : resKey res ∈ VALID_MOSAIC_RES) :
    (mosaic env ds res b verO).1 = .error (.valueError noDataMsg)
    ∧ (∀ (env₂ : Env) (ds₂ : String), noDataMsg ≠ datasetErrMsg env₂ ds₂)
    ∧ (∀ (ds₂ v₂ : String), noDataMsg ≠ versionErrMsg ds₂ v₂)
    ∧ (∀ (r₂ : String), noDataMsg ≠ resolutionErrMsg r₂) := by
  refine ⟨?_, ?_, ?_, ?_⟩
  · have hds' : pyLower ds = "arcticdem" ∨ pyLower ds = "rema" := by
      simpa [versionsKeys, VERSIONS] using hds
    rcases hds' with hA | hA
    · have hver' : resolveVersion "arcticdem" verO = .ok ver := hA ▸ hver
      rcases resolveVersion_ok_arcticdem verO ver hver' with rfl | rfl <;>
        simp [mosaic, mosaicStr, hA, hver', hres, indexLayer, get_index_fpath,
          versionsKeys, VERSIONS, mosaicTail_empty env hempty]
    · have hver' : resolveVersion "rema" verO = .ok ver := hA ▸ hver
      obtain rfl := resolveVersion_ok_rema verO ver hver'
      simp [mosaic, mosaicStr, hA, hver', hres, indexLayer, get_index_fpath,
        versionsKeys, VERSIONS, mosaicTail_empty env hempty]
  · intro env₂ ds₂
    exact string_ne_of_head _ _ 'N' 'D' rfl (datasetErrMsg_head env₂ ds₂) (by decide)
  · intro ds₂ v₂
    exact string_ne_of_head _ _ 'N' 'V' rfl (versionErrMsg_head ds₂ v₂) (by decide)
  · intro r₂
    exact string_ne_of_head _ _ 'N' 'R' rfl (resolutionErrMsg_head r₂) (by decide)

/-- Witness for claim C5: a valid rema call over an index intersecting
nothing fails with the no-data message. -/
theorem mosaic_zero_tiles_no_data_witness :
    (mosaic envEmpty "rema" (ResArg.str "2m") BoundsArg.omitted none).1
      = .error (.valueError noDataMsg) :=
  (mosaic_zero_tiles_no_data envEmpty (fun _ _ _ => rfl) "rema" (ResArg.str "2m") none
    BoundsArg.omitted "v2.0" (by decide) rfl (by decide)).1

/-- Claim C8: for every tile record and validated dataset/version/
resolution, the mosaic tile path is the slash-join of root, dataset,
"mosaics", version, resolution, supertile, and identifier-plus-suffix,
where the identifier is the tile code at 2m and the supertile code
otherwise, and the suffix carries the `_reg` registration marker exactly
for ArcticDEM v3.0. -/
theorem aws_link_path_structure (row : TileRow) (ds ver res : String)
    (hds : ds ∈ versionsKeys) (hver : ver ∈ versionsGet ds) (hres : res ∈ VALID_MOSAIC_RES) :
    aws_link row ds ver res AWS_ROOT
      = .ok (pyPathJoin [AWS_ROOT, ds, "mosaics", ver, res, row.supertile,
          (if res = "2m" then row.tile else row.supertile) ++ mosaicSuffix ds ver res])
    ∧ (∀ a b c d e f g : String,
        pyPathJoin [a, b, c, d, e, f, g]
          = a ++ "/" ++ (b ++ "/" ++ (c ++ "/" ++ (d ++ "/" ++ (e ++ "/" ++ (f ++ "/" ++ g))))))
    ∧ mosaicSuffix ds ver res
        = "_" ++ res ++ "_" ++ ver
            ++ (if ds = "arcticdem" ∧ ver = "v3.0" then "_reg" else "") ++ "_dem.tif"
    ∧ (("_reg".data <:+: (mosaicSuffix ds ver res).data) ↔ ds = "arcticdem" ∧ ver = "v3.0") := by
  have hds' : ds = "arcticdem" ∨ ds = "rema" := by simpa [versionsKeys, VERSIONS] using hds
  have hres' : res = "2m" ∨ res = "10m" ∨ res = "32m" := by simpa [VALID_MOSAIC_RES] using hres
  rcases hds' with rfl | rfl
  · have hver' : ver = "v3.0" ∨ ver = "v4.1" := by
      have hv : versionsGet "arcticdem" = ["v3.0", "v4.1"] := rfl
      rw [hv] at hver
      simpa using hver
    rcases hver' with rfl | rfl <;> rcases hres' with rfl | rfl | rfl <;>
      exact ⟨rfl, fun a b c d e f g => rfl, by decide, by decide⟩
  · have hver' : ver = "v2.0" := by
      have hv : versionsGet "rema" = ["v2.0"] := rfl
      rw [hv] at hver
      simpa using hver
    subst hver'
    rcases hres' with rfl | rfl | rfl <;>
      exact ⟨rfl, fun a b c d e f g => rfl, by decide, by decide⟩

/-- Witness for claim C8 at the ArcticDEM v3.0 2m combination. -/
theorem aws_link_path_structure_witness :
    aws_link ⟨"15_38_1_1", "15_38"⟩ "arcticdem" "v3.0" "2m" AWS_ROOT
      = .ok (pyPathJoin [AWS_ROOT, "arcticdem", "mosaics", "v3.0", "2m", "15_38",
          (if ("2m" : String) = "2m" then "15_38_1_1" else "15_38")
            ++ mosaicSuffix "arcticdem" "v3.0" "2m"])
    ∧ (("_reg".data <:+: (mosaicSuffix "arcticdem" "v3.0" "2m").data)
        ↔ ("arcticdem" : String) = "arcticdem" ∧ ("v3.0" : String) = "v3.0") :=
  ⟨(aws_link_path_structure ⟨"15_38_1_1", "15_38"⟩ "arcticdem" "v3.0" "2m"
      (by decide) (by decide) (by decide)).1,
   (aws_link_path_structure ⟨"15_38_1_1", "15_38"⟩ "arcticdem" "v3.0" "2m"
      (by decide) (by decide) (by decide)).2.2.2⟩

/-- Claim C9: the configuration-error branches of the index-layer and
index-file lookups succeed exactly on the validated dataset/version
combinations (first two conjuncts), the version `mosaic` resolves is
always in the validated set (third conjunct), and consequently no call
to `mosaic` ever returns the configuration error (fourth conjunct). -/
theorem config_error_unreachable (env : Env) (ds ver : String) :
    ((∃ l, indexLayer ds ver = .ok l) ↔ ds ∈ versionsKeys ∧ ver ∈ versionsGet ds)
    ∧ ((∃ f, get_index_fpath env ds ver = .ok f) ↔ ds ∈ versionsKeys ∧ ver ∈ versionsGet ds)
    ∧ (∀ (verO : Option String) (v : String), ds ∈ versionsKeys →
        resolveVersion ds verO = .ok v → v ∈ versionsGet ds)
    ∧ (∀ (res : ResArg) (b : BoundsArg) (verO : Option String),
        (mosaic env ds res b verO).1 ≠ .error (.valueError configErrMsg)) := by
  refine ⟨?_, ?_, ?_, ?_⟩
  · constructor
    · rintro ⟨l, hl⟩
      unfold indexLayer at hl
      by_cases c1 : ds = "arcticdem" ∧ ver = "v3.0"
      · obtain ⟨rfl, rfl⟩ := c1
        exact ⟨by decide, by decide⟩
      · rw [if_neg c1] at hl
        by_cases c2 : ds = "arcticdem" ∧ ver = "v4.1"
        · obtain ⟨rfl, rfl⟩ := c2
          exact ⟨by decide, by decide⟩
        · rw [if_neg c2] at hl
          by_cases c3 : ds = "rema" ∧ ver = "v2.0"
          · obtain ⟨rfl, rfl⟩ := c3
            exact ⟨by decide, by decide⟩
          · rw [if_neg c3] at hl
            simp at hl
    · rintro ⟨hds, hver⟩
      have hds' : ds = "arcticdem" ∨ ds = "rema" := by simpa [versionsKeys, VERSIONS] using hds
      rcases hds' with rfl | rfl
      · have hver' : ver = "v3.0" ∨ ver = "v4.1" := by
          have hv : versionsGet "arcticdem" = ["v3.0", "v4.1"] := rfl
          rw [hv] at hver
          simpa using hver
        rcases hver' with rfl | rfl
        · exact ⟨ARCTICDEM_V3_INDEX_2M_LAYER_NAME, rfl⟩
        · exact ⟨ARCTICDEM_V4_INDEX_2M_LAYER_NAME, rfl⟩
      · have hver' : ver = "v2.0" := by
          have hv : versionsGet "rema" = ["v2.0"] := rfl
          rw [hv] at hver
          simpa using hver
        subst hver'
        exact ⟨REMA_V2_INDEX_2M_LAYER_NAME, rfl⟩
  · constructor
    · rintro ⟨f, hf⟩
      unfold get_index_fpath at hf
      by_cases c1 : ds = "arcticdem" ∧ ver = "v3.0"
      · obtain ⟨rfl, rfl⟩ := c1
        exact ⟨by decide, by decide⟩
      · rw [if_neg c1] at hf
        by_cases c2 : ds = "arcticdem" ∧ ver = "v4.1"
        · obtain ⟨rfl, rfl⟩ := c2
          exact ⟨by decide, by decide⟩
        · rw [if_neg c2] at hf
          by_cases c3 : ds = "rema" ∧ ver = "v2.0"
          · obtain ⟨rfl, rfl⟩ := c3
            exact ⟨by decide, by decide⟩
          · rw [if_neg c3] at hf
            simp at hf
    · rintro ⟨hds, hver⟩
      have hds' : ds = "arcticdem" ∨ ds = "rema" := by simpa [versionsKeys, VERSIONS] using hds
      rcases hds' with rfl | rfl
      · have hver' : ver = "v3.0" ∨ ver = "v4.1" := by
          have hv : versionsGet "arcticdem" = ["v3.0", "v4.1"] := rfl
          rw [hv] at hver
          simpa using hver
        rcases hver' with rfl | rfl
        · exact ⟨pyPathJoin [env.resourceRoot, ARCTICDEM_V3_INDEX_FNAME], rfl⟩
        · exact ⟨pyPathJoin [env.resourceRoot, ARCTICDEM_V4_INDEX_FNAME], rfl⟩
      · have hver' : ver = "v2.0" := by
          have hv : versionsGet "rema" = ["v2.0"] := rfl
          rw [hv] at hver
          simpa using hver
        subst hver'
        exact ⟨pyPathJoin [env.resourceRoot, REMA_V2_INDEX_FNAME], rfl⟩
  · intro verO v hds hver
    have hds' : ds = "arcticdem" ∨ ds = "rema" := by simpa [versionsKeys, VERSIONS] using hds
    rcases hds' with rfl | rfl
    · rcases resolveVersion_ok_arcticdem verO v hver with rfl | rfl <;> decide
    · obtain rfl := resolveVersion_ok_rema verO v hver
      decide
  · intro res b verO hcontra
    by_cases h1 : pyLower ds ∈ versionsKeys
    case neg =>
        have h' : (Except.error (.valueError (datasetErrMsg env (pyLower ds))) :
            Except PyError Raster) = .error (.valueError configErrMsg) := by
          rw [← hcontra]
          simp [mosaic, mosaicStr, h1]
        have hmsg := PyError.valueError.inj (Except.error.inj h')
        exact absurd hmsg
          (string_ne_of_head _ _ 'D' 'C' (datasetErrMsg_head env _) rfl (by decide))
    case pos =>
      cases hrv : resolveVersion (pyLower ds) verO with
      | error e =>
          have h' : (Except.error e : Except PyError Raster)
              = .error (.valueError configErrMsg) := by
            rw [← hcontra]
            simp [mosaic, mosaicStr, h1, hrv]
          obtain rfl := Except.error.inj h'
          rcases resolveVersion_error_form _ _ _ hrv with he | ⟨v2, he⟩
          · exact absurd he (by simp)
          · have hmsg := PyError.valueError.inj he
            exact absurd hmsg.symm
              (string_ne_of_head _ _ 'V' 'C' (versionErrMsg_head _ _) rfl (by decide))
      | ok ver2 =>
          by_cases h2 : resKey res ∈ VALID_MOSAIC_RES
          case neg =>
              have h' : (Except.error (.valueError (resolutionErrMsg (resKey res))) :
                  Except PyError Raster) = .error (.valueError configErrMsg) := by
                rw [← hcontra]
                simp [mosaic, mosaicStr, h1, hrv, h2]
              have hmsg := PyError.valueError.inj (Except.error.inj h')
              exact absurd hmsg
                (string_ne_of_head _ _ 'R' 'C' (resolutionErrMsg_head _) rfl (by decide))
          case pos =>
              have hds' : pyLower ds = "arcticdem" ∨ pyLower ds = "rema" := by
                simpa [versionsKeys, VERSIONS] using h1
              rcases hds' with hA | hA
              · have hrv' : resolveVersion "arcticdem" verO = .ok ver2 := hA ▸ hrv
                rcases resolveVersion_ok_arcticdem verO ver2 hrv' with rfl | rfl
                · have h' : (mosaicTail env "arcticdem" "v3.0" (resKey res) (boundsResolve b)
                      (pyPathJoin [env.resourceRoot, ARCTICDEM_V3_INDEX_FNAME])
                      ARCTICDEM_V3_INDEX_2M_LAYER_NAME).1
                        = .error (.valueError configErrMsg) := by
                    rw [← hcontra]
                    simp [mosaic, mosaicStr, hA, hrv', h2, indexLayer, get_index_fpath,
                      versionsKeys, VERSIONS]
                  exact absurd h' (mosaicTail_not_config env _ _ _ _ _ _ h2)
                · have h' : (mosaicTail env "arcticdem" "v4.1" (resKey res) (boundsResolve b)
                      (pyPathJoin [env.resourceRoot, ARCTICDEM_V4_INDEX_FNAME])
                      ARCTICDEM_V4_INDEX_2M_LAYER_NAME).1
                        = .error (.valueError configErrMsg) := by
                    rw [← hcontra]
                    simp [mosaic, mosaicStr, hA, hrv', h2, indexLayer, get_index_fpath,
                      versionsKeys, VERSIONS]
                  exact absurd h' (mosaicTail_not_config env _ _ _ _ _ _ h2)
              · have hrv' : resolveVersion "rema" verO = .ok ver2 := hA ▸ hrv
                obtain rfl := resolveVersion_ok_rema verO ver2 hrv'
                have h' : (mosaicTail env "rema" "v2.0" (resKey res) (boundsResolve b)
                    (pyPathJoin [env.resourceRoot, REMA_V2_INDEX_FNAME])
                    REMA_V2_INDEX_2M_LAYER_NAME).1
                      = .error (.valueError configErrMsg) := by
                  rw [← hcontra]
                  simp [mosaic, mosaicStr, hA, hrv', h2, indexLayer, get_index_fpath,
                    versionsKeys, VERSIONS]
                exact absurd h' (mosaicTail_not_config env _ _ _ _ _ _ h2)

/-- Witness for claim C9 at concrete inputs: both lookups succeed for
arcticdem/v3.0, the resolved default arcticdem version is validated, and
a concrete mosaic call does not return the configuration error. -/
theorem config_error_unreachable_witness :
    (∃ l, indexLayer "arcticdem" "v3.0" = .ok l)
    ∧ ("v4.1" ∈ versionsGet "arcticdem")
    ∧ (mosaic envA "arcticdem" (ResArg.str "2m") (BoundsArg.tup (0, 0, 1, 1)) none).1
        ≠ .error (.valueError configErrMsg) :=
  ⟨(config_error_unreachable envA "arcticdem" "v3.0").1.2 ⟨by decide, by decide⟩,
   (config_error_unreachable envA "arcticdem" "v4.1").2.2.1 none "v4.1" (by decide) rfl,
   (config_error_unreachable envA "arcticdem" "v3.0").2.2.2 (ResArg.str "2m")
     (BoundsArg.tup (0, 0, 1, 1)) none⟩
